import Mathlib

/-!
Shallow embedding of the saga orchestration layer (`gbus/saga/glue.go`) of
the grabbit message bus.  The `Glue` orchestrator's dispatch, registration,
lifecycle-reconciliation and timeout-firing logic is translated directly
from the source.  External collaborators (the `Store`, the
`TimeoutManager` and the saga author's business handlers) and the
`Def`/`Instance` helper methods that live outside the translated file are
modelled as an environment of oracle functions; every call the
orchestrator makes into a collaborator is recorded in an effect trace so
that theorems can speak about which persistence mutations were issued and
in which order.
-/

namespace Grabbit

/-- Go `error` values are modelled by their message string; `none` in an
`Option Err` is Go's `nil` error. -/
abbrev Err := String

/-- `ErrInstanceNotFound` — sentinel returned by the saga store if a saga
lookup by saga id returns no valid instances (glue.go line 29). -/
def ErrInstanceNotFound : Err := "saga not be found"

/-- `strings.ToLower`, modelled by case folding the string's character
list (message names are ASCII identifiers). -/
def lowerString (s : String) : String := ⟨s.data.map Char.toLower⟩

/-- Message semantics tag: command-like vs event-like (`gbus.CMD` /
`gbus.EVT`). -/
inductive Semantics where
  | CMD
  | EVT
  deriving DecidableEq

/-- The fields of `gbus.BusMessage` read by the saga glue. -/
structure BusMessage where
  payloadFQN : String
  sagaID : String
  sagaCorrelationID : String
  rpcID : String
  id : String
  semantics : Semantics
  deriving DecidableEq

/-- Modelled from the spec: the state of the underlying saga object owned
by business logic (`Instance.UnderlyingInstance`, instance.go is not part
of the translated file).  It carries the completion flag reported by
`isComplete`, the timeout request reported by `requestsTimeout` (`none`
when no timeout is requested, `some d` for a requested duration `d`), and
opaque business data.  Business handlers may mutate exactly this state. -/
structure SagaState where
  complete : Bool
  timeoutRequest : Option Nat
  data : Nat
  deriving DecidableEq

/-- A saga `Instance`: identity, causation metadata and the underlying
business state.  The causation fields are assigned only by
`handleNewSaga`; business invocations replace only `underlying`. -/
structure Instance where
  id : String
  startedBy : String
  startedBySaga : String
  startedByRPCID : String
  startedByMessageID : String
  underlying : SagaState
  deriving DecidableEq

/-- `Instance.isComplete` delegates to the underlying saga's completion
flag (modelled from the spec: instance.go is not part of the translated
file). -/
def Instance.isComplete (i : Instance) : Bool := i.underlying.complete

/-- The pure data of a saga `Def` relevant to dispatch: the saga type
identifier (standing for the `reflect.Type`), the start-trigger message
names, and the keys of the handler table (`getHandledMessages`). -/
structure Def where
  sagaType : String
  startedBy : List String
  handledMessages : List String
  deriving DecidableEq

/-- Modelled from the spec: `Def.shouldStartNewSaga` (def.go is not part
of the translated file) returns whether the Def's `startedBy` set
contains the message name. -/
def shouldStartNewSaga (d : Def) (msg : BusMessage) : Bool :=
  d.startedBy.contains msg.payloadFQN

/-- A saga author's registration data: the concrete type identifier
(`reflect.TypeOf(saga)`), the start triggers (`fqnsFromMessages
(saga.StartedBy())`) and the message names its `RegisterAllHandlers`
wires into the Def's handler table. -/
structure Saga where
  sagaType : String
  startedBy : List String
  handledMessages : List String
  deriving DecidableEq

/-- The fields of the incoming `gbus.Invocation` the glue reads
(`InvokingSvc`; the transaction handle and tracing context are opaque). -/
structure Invocation where
  invokingSvc : String
  deriving DecidableEq

/-- Result of `Store.GetSagaByID`, which in Go returns an
`(*Instance, error)` pair: a found instance, the `(nil, nil)` no-instance
case, or a non-nil error. -/
inductive GetSagaResult where
  | found (inst : Instance)
  | notFound
  | failure (e : Err)
  deriving DecidableEq

/-- One call the orchestrator makes into a collaborator (Store,
TimeoutManager or business handler), recorded in order of issue. -/
inductive Effect where
  | registerSagaType (sagaType : String)
  | getSagaByID (sagaID : String)
  | getSagasByType (sagaType : String)
  | invokeHandler (inst : Instance) (msg : BusMessage)
  | invokeTimeoutHandler (inst : Instance)
  | saveNewSaga (sagaType : String) (inst : Instance)
  | updateSaga (inst : Instance)
  | deleteSaga (inst : Instance)
  | registerTimeout (sagaID : String) (duration : Nat)
  | clearTimeout (sagaID : String)
  deriving DecidableEq

/-- A persistence mutation is a save, update or delete issued to the
Store. -/
def Effect.isPersistenceMutation : Effect → Bool
  | .saveNewSaga _ _ => true
  | .updateSaga _ => true
  | .deleteSaga _ => true
  | _ => false

/-- The environment of collaborator behaviours for one dispatch: the
Store and TimeoutManager operations, the business handler invocation
(`Instance.invoke`, which may fail or replace the underlying saga state),
the timeout handler (`Instance.timeout`), `Def.configureSaga` (keyed by
saga type) and `Def.newInstance` (the fresh instance, keyed by saga
type).  All are modelled from the spec as opaque collaborators. -/
structure Env where
  getSagaByID : String → GetSagaResult
  getSagasByType : String → Except Err (List Instance)
  saveNewSaga : String → Instance → Option Err
  updateSaga : Instance → Option Err
  deleteSaga : Instance → Option Err
  registerTimeout : String → Nat → Option Err
  clearTimeout : String → Option Err
  invoke : Instance → BusMessage → Except Err SagaState
  timeoutHandler : Instance → Except Err SagaState
  configure : String → SagaState → SagaState
  newInstance : String → Instance

/-- Result of one orchestrator entry point: the returned Go error (or
`none` for success) together with the ordered trace of collaborator
calls. -/
abbrev HRes := Option Err × List Effect

/-- The `Glue` state read and written by registration and dispatch: the
registered Defs and the message-name → Defs index.  (Only the fields the
translated operations touch are carried.) -/
structure Glue where
  svcName : String
  sagaDefs : List Def
  msgToDefMap : String → List Def

/-- `getDefsForMsgName` — Go map read with nil defaulting to the empty
slice. -/
def getDefsForMsgName (m : String → List Def) (msgName : String) : List Def :=
  m msgName

/-- `addMsgNameToDef` — append `d` to the slice indexed under
`msgName`. -/
def addMsgNameToDef (m : String → List Def) (msgName : String) (d : Def) :
    String → List Def :=
  fun k => if k = msgName then getDefsForMsgName m msgName ++ [d] else m k

/-- `isSagaAlreadyRegistered` — whether some registered Def has this saga
type. -/
def isSagaAlreadyRegistered (g : Glue) (sagaType : String) : Bool :=
  g.sagaDefs.any (fun d => d.sagaType == sagaType)

/-- The Def built by `RegisterSaga` for a saga.  Modelled from the spec:
the handler-table keys exposed by `getHandledMessages` compare
case-insensitively (def.go, not part of the translated file, stores them
lowercased), so the dispatch index keys are the lowercased message
names. -/
def mkDef (s : Saga) : Def :=
  { sagaType := s.sagaType
    startedBy := s.startedBy
    handledMessages := s.handledMessages.map lowerString }

/-- `RegisterSaga` — reject a duplicate saga type; otherwise prepare
storage (`sagaStore.RegisterSagaType`), build the Def, append it to
`sagaDefs` and index it under every message name it handles. -/
def RegisterSaga (g : Glue) (s : Saga) : Option Err × Glue × List Effect :=
  if isSagaAlreadyRegistered g s.sagaType then
    (some ("saga of type " ++ s.sagaType ++ " already registered"), g, [])
  else
    let d := mkDef s
    let withDef : Glue := { g with sagaDefs := g.sagaDefs ++ [d] }
    let indexed : Glue :=
      { withDef with
          msgToDefMap :=
            d.handledMessages.foldl (fun m n => addMsgNameToDef m n d)
              withDef.msgToDefMap }
    (none, indexed, [Effect.registerSagaType s.sagaType])

/-- `completeOrUpdateSaga` — delete a complete instance and clear its
timeout, otherwise update it. -/
def completeOrUpdateSaga (env : Env) (inst : Instance) : HRes :=
  if inst.isComplete then
    match env.deleteSaga inst with
    | some e => (some e, [Effect.deleteSaga inst])
    | none =>
        (env.clearTimeout inst.id,
         [Effect.deleteSaga inst, Effect.clearTimeout inst.id])
  else
    (env.updateSaga inst, [Effect.updateSaga inst])

/-- The fresh instance constructed at the top of `handleNewSaga`:
`def.newInstance()` with the causation fields stamped from the triggering
invocation and message. -/
def newSagaInstance (env : Env) (d : Def) (inv : Invocation)
    (msg : BusMessage) : Instance :=
  { env.newInstance d.sagaType with
      startedBy := inv.invokingSvc
      startedBySaga := msg.sagaID
      startedByRPCID := msg.rpcID
      startedByMessageID := msg.id }

/-- `handleNewSaga` — construct a fresh instance, invoke it, and if the
invocation succeeded and left it incomplete, save it as new and register
any requested timeout. -/
def handleNewSaga (env : Env) (d : Def) (inv : Invocation)
    (msg : BusMessage) : HRes :=
  let i0 := newSagaInstance env d inv msg
  match env.invoke i0 msg with
  | .error invkErr => (some invkErr, [Effect.invokeHandler i0 msg])
  | .ok s =>
    if !({ i0 with underlying := s } : Instance).isComplete then
      let i1 : Instance := { i0 with underlying := s }
      match env.saveNewSaga d.sagaType i1 with
      | some e =>
          (some e,
           [Effect.invokeHandler i0 msg, Effect.saveNewSaga d.sagaType i1])
      | none =>
        match s.timeoutRequest with
        | some duration =>
            (env.registerTimeout i1.id duration,
             [Effect.invokeHandler i0 msg, Effect.saveNewSaga d.sagaType i1,
              Effect.registerTimeout i1.id duration])
        | none =>
            (none,
             [Effect.invokeHandler i0 msg, Effect.saveNewSaga d.sagaType i1])
    else (none, [Effect.invokeHandler i0 msg])

/-- Error returned for a command-like message with no saga reference. -/
def canNotResolveSagaErr : Err := "can not resolve saga instance for message"

/-- One instance's processing in dispatch: `configureSaga`, then
`invokeSagaInstance`, then (on success) `completeOrUpdateSaga`.  This is
the shared body of the correlated branch and of each fan-out iteration. -/
def dispatchToInstance (env : Env) (sagaType : String) (msg : BusMessage)
    (inst : Instance) : HRes :=
  let c : Instance := { inst with underlying := env.configure sagaType inst.underlying }
  match env.invoke c msg with
  | .error invkErr => (some invkErr, [Effect.invokeHandler c msg])
  | .ok s =>
    let c2 : Instance := { c with underlying := s }
    let r := completeOrUpdateSaga env c2
    (r.1, Effect.invokeHandler c msg :: r.2)

/-- The fan-out loop over the instances returned by `GetSagasByType`:
invoke and reconcile each in order, stopping at the first error. -/
def fanOutLoop (env : Env) (sagaType : String) (msg : BusMessage) :
    List Instance → HRes
  | [] => (none, [])
  | inst :: rest =>
    let r := dispatchToInstance env sagaType msg inst
    match r.1 with
    | some e => (some e, r.2)
    | none =>
      let rr := fanOutLoop env sagaType msg rest
      (rr.1, r.2 ++ rr.2)

/-- The `for _, def := range defs` loop of `SagaHandler`: per Def, the
start check, the correlated branch, the unroutable-command branch, or the
event fan-out (the only branch that falls through to the next Def). -/
def sagaHandlerLoop (env : Env) (inv : Invocation) (msg : BusMessage) :
    List Def → HRes
  | [] => (none, [])
  | d :: rest =>
    if shouldStartNewSaga d msg then
      handleNewSaga env d inv msg
    else if msg.sagaCorrelationID ≠ "" then
      match env.getSagaByID msg.sagaCorrelationID with
      | .failure getErr => (some getErr, [Effect.getSagaByID msg.sagaCorrelationID])
      | .notFound => (none, [Effect.getSagaByID msg.sagaCorrelationID])
      | .found inst =>
        let r := dispatchToInstance env d.sagaType msg inst
        (r.1, Effect.getSagaByID msg.sagaCorrelationID :: r.2)
    else if msg.semantics = Semantics.CMD then
      (some canNotResolveSagaErr, [])
    else
      match env.getSagasByType d.sagaType with
      | .error e => (some e, [Effect.getSagasByType d.sagaType])
      | .ok instances =>
        let r := fanOutLoop env d.sagaType msg instances
        match r.1 with
        | some e => (some e, Effect.getSagasByType d.sagaType :: r.2)
        | none =>
          let rr := sagaHandlerLoop env inv msg rest
          (rr.1, Effect.getSagasByType d.sagaType :: r.2 ++ rr.2)

/-- The Defs dispatch resolves for a message name: the index read under
the lowercased name (`msgToDefMap[strings.ToLower(msgName)]`). -/
def resolveDefs (g : Glue) (msgName : String) : List Def :=
  g.msgToDefMap (lowerString msgName)

/-- `SagaHandler` — the generic handler invoking saga instances. -/
def SagaHandler (g : Glue) (env : Env) (inv : Invocation)
    (msg : BusMessage) : HRes :=
  sagaHandlerLoop env inv msg (resolveDefs g msg.payloadFQN)

/-- `TimeoutSaga` — fetch the instance by id; the not-found sentinel is a
no-op success; otherwise invoke the timeout handler and reconcile.  The
result is `none` when the Go code dereferences a nil instance (the
`(nil, nil)` store answer), which is abnormal termination. -/
def TimeoutSaga (env : Env) (sagaID : String) : Option HRes :=
  match env.getSagaByID sagaID with
  | .failure e =>
      if e = ErrInstanceNotFound then
        some (none, [Effect.getSagaByID sagaID])
      else
        some (some e, [Effect.getSagaByID sagaID])
  | .notFound => none
  | .found saga =>
    match env.timeoutHandler saga with
    | .error timeoutErr =>
        some (some timeoutErr,
              [Effect.getSagaByID sagaID, Effect.invokeTimeoutHandler saga])
    | .ok s =>
      let saga2 : Instance := { saga with underlying := s }
      let r := completeOrUpdateSaga env saga2
      some (r.1, Effect.getSagaByID sagaID :: Effect.invokeTimeoutHandler saga :: r.2)

/-! ### Concrete exemplars used by witnesses -/

/-- An incomplete underlying saga state. -/
def sagaStateEx : SagaState := { complete := false, timeoutRequest := none, data := 0 }

/-- A completed underlying saga state. -/
def completeStateEx : SagaState := { complete := true, timeoutRequest := none, data := 0 }

/-- An exemplar stored instance. -/
def instEx : Instance :=
  { id := "saga-1", startedBy := "svc-a", startedBySaga := "", startedByRPCID := "",
    startedByMessageID := "m0", underlying := sagaStateEx }

/-- An exemplar completed instance. -/
def completeInstEx : Instance := { instEx with underlying := completeStateEx }

/-- An environment in which every collaborator call succeeds, lookups by
id find nothing (`(nil, nil)`), type fan-out finds no instances, and the
business handler leaves the saga state unchanged. -/
def envEx : Env :=
  { getSagaByID := fun _ => GetSagaResult.notFound
    getSagasByType := fun _ => Except.ok []
    saveNewSaga := fun _ _ => none
    updateSaga := fun _ => none
    deleteSaga := fun _ => none
    registerTimeout := fun _ _ => none
    clearTimeout := fun _ => none
    invoke := fun i _ => Except.ok i.underlying
    timeoutHandler := fun i => Except.ok i.underlying
    configure := fun _ s => s
    newInstance := fun t => { instEx with id := t ++ "/new" } }

/-! ### Claims -/

/-- C4: for every instance passed to `completeOrUpdateSaga`: a complete
instance is deleted from the Store and its timeout cleared, a failure of
either propagating, and update is never called; an incomplete instance is
updated and never deleted nor has its timeout cleared. -/
theorem completeOrUpdateSaga_complete_deletes_else_updates
    (env : Env) (inst : Instance) :
    (inst.isComplete = true →
      (∀ e, env.deleteSaga inst = some e →
          completeOrUpdateSaga env inst = (some e, [Effect.deleteSaga inst]))
      ∧ (env.deleteSaga inst = none →
          completeOrUpdateSaga env inst =
            (env.clearTimeout inst.id,
             [Effect.deleteSaga inst, Effect.clearTimeout inst.id]))
      ∧ (∀ i, Effect.updateSaga i ∉ (completeOrUpdateSaga env inst).2))
    ∧ (inst.isComplete = false →
        completeOrUpdateSaga env inst = (env.updateSaga inst, [Effect.updateSaga inst])
        ∧ (∀ i, Effect.deleteSaga i ∉ (completeOrUpdateSaga env inst).2)
        ∧ (∀ sid, Effect.clearTimeout sid ∉ (completeOrUpdateSaga env inst).2)) := by
  constructor
  · intro hc
    refine ⟨?_, ?_, ?_⟩
    · intro e hdel
      simp [completeOrUpdateSaga, hc, hdel]
    · intro hdel
      simp [completeOrUpdateSaga, hc, hdel]
    · intro i
      cases hdel : env.deleteSaga inst <;>
        simp [completeOrUpdateSaga, hc, hdel]
  · intro hc
    refine ⟨?_, ?_, ?_⟩ <;> simp [completeOrUpdateSaga, hc]

/-- Witness for C4: a concrete completed instance in an environment where
deletion succeeds is deleted and its timeout cleared. -/
theorem completeOrUpdateSaga_complete_deletes_else_updates_witness :
    completeOrUpdateSaga envEx completeInstEx =
      (none, [Effect.deleteSaga completeInstEx, Effect.clearTimeout "saga-1"]) :=
  ((completeOrUpdateSaga_complete_deletes_else_updates envEx completeInstEx).1
    (by decide)).2.1 (by decide)

/-- An exemplar Def: started by `OrderCreated`, handling `OrderCreated`
and `OrderPaid` (index keys lowercased). -/
def defEx : Def :=
  { sagaType := "OrderSaga", startedBy := ["OrderCreated"],
    handledMessages := ["ordercreated", "orderpaid"] }

/-- An exemplar Glue with `defEx` registered and indexed. -/
def glueEx : Glue :=
  { svcName := "svc-host", sagaDefs := [defEx],
    msgToDefMap := fun k =>
      if k = "ordercreated" then [defEx]
      else if k = "orderpaid" then [defEx]
      else [] }

/-- An exemplar invocation. -/
def invEx : Invocation := { invokingSvc := "svc-a" }

/-- An exemplar correlated event message (`OrderPaid` targeting saga id
`corr-1`). -/
def msgPaidEx : BusMessage :=
  { payloadFQN := "OrderPaid", sagaID := "s0", sagaCorrelationID := "corr-1",
    rpcID := "r0", id := "m1", semantics := Semantics.EVT }

/-- An environment whose id lookups answer with the not-found sentinel
error. -/
def envSentinelEx : Env :=
  { envEx with getSagaByID := fun _ => GetSagaResult.failure ErrInstanceNotFound }

/-- C1: a dispatched message with a non-empty `SagaCorrelationID` that is
not a start message for the matching Def and matches no stored instance
(the store answers `(nil, nil)`) makes `SagaHandler` return success, and
no persistence mutation (save, update or delete) is issued. -/
theorem sagaHandler_correlated_notFound_benign
    (g : Glue) (env : Env) (inv : Invocation) (msg : BusMessage)
    (d : Def) (rest : List Def)
    (hdefs : resolveDefs g msg.payloadFQN = d :: rest)
    (hstart : shouldStartNewSaga d msg = false)
    (hcid : msg.sagaCorrelationID ≠ "")
    (hget : env.getSagaByID msg.sagaCorrelationID = GetSagaResult.notFound) :
    SagaHandler g env inv msg = (none, [Effect.getSagaByID msg.sagaCorrelationID])
    ∧ ∀ eff ∈ (SagaHandler g env inv msg).2, eff.isPersistenceMutation = false := by
  have h : SagaHandler g env inv msg =
      (none, [Effect.getSagaByID msg.sagaCorrelationID]) := by
    simp [SagaHandler, hdefs, sagaHandlerLoop, hstart, hcid, hget]
  refine ⟨h, ?_⟩
  rw [h]
  intro eff he
  simp only [List.mem_singleton] at he
  subst he
  rfl

/-- Witness for C1: the concrete correlated `OrderPaid` message against a
store holding no matching instance dispatches to success with only the
lookup issued. -/
theorem sagaHandler_correlated_notFound_benign_witness :
    SagaHandler glueEx envEx invEx msgPaidEx = (none, [Effect.getSagaByID "corr-1"])
    ∧ ∀ eff ∈ (SagaHandler glueEx envEx invEx msgPaidEx).2,
        eff.isPersistenceMutation = false :=
  sagaHandler_correlated_notFound_benign glueEx envEx invEx msgPaidEx defEx []
    (by decide) (by decide) (by decide) (by decide)

/-- C9: when the store reports absence of a correlated instance via the
sentinel error `ErrInstanceNotFound` (rather than a nil instance with nil
error), `SagaHandler` propagates the sentinel as a dispatch error, while
`TimeoutSaga` treats the very same store answer as a no-op success. -/
theorem sagaHandler_sentinel_propagates_timeoutSaga_swallows
    (g : Glue) (env : Env) (inv : Invocation) (msg : BusMessage)
    (d : Def) (rest : List Def)
    (hdefs : resolveDefs g msg.payloadFQN = d :: rest)
    (hstart : shouldStartNewSaga d msg = false)
    (hcid : msg.sagaCorrelationID ≠ "")
    (hget : env.getSagaByID msg.sagaCorrelationID =
      GetSagaResult.failure ErrInstanceNotFound) :
    SagaHandler g env inv msg =
      (some ErrInstanceNotFound, [Effect.getSagaByID msg.sagaCorrelationID])
    ∧ TimeoutSaga env msg.sagaCorrelationID =
      some (none, [Effect.getSagaByID msg.sagaCorrelationID]) := by
  constructor
  · simp [SagaHandler, hdefs, sagaHandlerLoop, hstart, hcid, hget]
  · simp [TimeoutSaga, hget]

/-- Witness for C9: the concrete correlated message against a store
answering with the sentinel error fails dispatch with that sentinel,
while the timeout path succeeds. -/
theorem sagaHandler_sentinel_propagates_timeoutSaga_swallows_witness :
    SagaHandler glueEx envSentinelEx invEx msgPaidEx =
      (some ErrInstanceNotFound, [Effect.getSagaByID "corr-1"])
    ∧ TimeoutSaga envSentinelEx "corr-1" =
      some (none, [Effect.getSagaByID "corr-1"]) :=
  sagaHandler_sentinel_propagates_timeoutSaga_swallows glueEx envSentinelEx invEx
    msgPaidEx defEx [] (by decide) (by decide) (by decide) (by decide)

/-- An exemplar start message carrying a (stale) correlation id. -/
def msgCreateEx : BusMessage :=
  { payloadFQN := "OrderCreated", sagaID := "s0", sagaCorrelationID := "corr-9",
    rpcID := "r0", id := "m2", semantics := Semantics.EVT }

/-- An exemplar command message with no correlation id. -/
def msgCmdEx : BusMessage :=
  { payloadFQN := "OrderPaid", sagaID := "s0", sagaCorrelationID := "",
    rpcID := "r0", id := "m3", semantics := Semantics.CMD }

/-- C6: a message in the reached Def's `startedBy` set takes the creation
path, whose result `SagaHandler` returns immediately — with no hypothesis
on the message's correlation id, and independently of the remaining Defs
indexed under the same name. -/
theorem sagaHandler_start_message_creation_path
    (g : Glue) (env : Env) (inv : Invocation) (msg : BusMessage)
    (d : Def) (rest : List Def)
    (hdefs : resolveDefs g msg.payloadFQN = d :: rest)
    (hstart : shouldStartNewSaga d msg = true) :
    SagaHandler g env inv msg = handleNewSaga env d inv msg := by
  simp [SagaHandler, hdefs, sagaHandlerLoop, hstart]

/-- Witness for C6: the concrete `OrderCreated` start message — even
though it carries a correlation id — is handled by the creation path. -/
theorem sagaHandler_start_message_creation_path_witness :
    SagaHandler glueEx envEx invEx msgCreateEx =
      handleNewSaga envEx defEx invEx msgCreateEx :=
  sagaHandler_start_message_creation_path glueEx envEx invEx msgCreateEx defEx []
    (by decide) (by decide)

/-- C10: for a non-start message, the correlated-dispatch branch ends the
handler call whatever its outcome (the result is that of processing the
head Def alone), the unroutable-command branch ends the call with the
resolution error, and only the event fan-out branch — when every
instance reconciles without error — continues the loop to the remaining
Defs. -/
theorem sagaHandlerLoop_branch_termination
    (env : Env) (inv : Invocation) (msg : BusMessage) (d : Def) (rest : List Def)
    (hstart : shouldStartNewSaga d msg = false) :
    (msg.sagaCorrelationID ≠ "" →
      sagaHandlerLoop env inv msg (d :: rest) = sagaHandlerLoop env inv msg [d])
    ∧ (msg.sagaCorrelationID = "" → msg.semantics = Semantics.CMD →
      sagaHandlerLoop env inv msg (d :: rest) = (some canNotResolveSagaErr, []))
    ∧ (msg.sagaCorrelationID = "" → msg.semantics = Semantics.EVT →
      ∀ instances, env.getSagasByType d.sagaType = Except.ok instances →
        (fanOutLoop env d.sagaType msg instances).1 = none →
        sagaHandlerLoop env inv msg (d :: rest) =
          ((sagaHandlerLoop env inv msg rest).1,
           Effect.getSagasByType d.sagaType ::
             ((fanOutLoop env d.sagaType msg instances).2 ++
              (sagaHandlerLoop env inv msg rest).2))) := by
  refine ⟨?_, ?_, ?_⟩
  · intro hcid
    simp [sagaHandlerLoop, hstart, hcid]
  · intro hcid hsem
    simp [sagaHandlerLoop, hstart, hcid, hsem]
  · intro hcid hsem instances hget hok
    simp [sagaHandlerLoop, hstart, hcid, hsem, hget, hok]

/-- Witness for C10: a concrete correlated message produces the same
result with one or two Defs indexed, and a concrete correlation-free
command ends the loop with the resolution error. -/
theorem sagaHandlerLoop_branch_termination_witness :
    (sagaHandlerLoop envEx invEx msgPaidEx [defEx, defEx] =
      sagaHandlerLoop envEx invEx msgPaidEx [defEx])
    ∧ sagaHandlerLoop envEx invEx msgCmdEx [defEx, defEx] =
      (some canNotResolveSagaErr, []) :=
  ⟨(sagaHandlerLoop_branch_termination envEx invEx msgPaidEx defEx [defEx]
      (by decide)).1 (by decide),
   (sagaHandlerLoop_branch_termination envEx invEx msgCmdEx defEx [defEx]
      (by decide)).2.1 (by decide) (by decide)⟩

/-- C3: `handleNewSaga` stamps the fresh instance's causation fields from
the triggering invocation and message; an invocation failure propagates
with nothing persisted; after a successful invocation the instance is
saved as new exactly when it is not complete, and a complete instance is
never updated nor deleted. -/
theorem handleNewSaga_causation_and_persistence
    (env : Env) (d : Def) (inv : Invocation) (msg : BusMessage) :
    ((newSagaInstance env d inv msg).startedBy = inv.invokingSvc
      ∧ (newSagaInstance env d inv msg).startedBySaga = msg.sagaID
      ∧ (newSagaInstance env d inv msg).startedByRPCID = msg.rpcID
      ∧ (newSagaInstance env d inv msg).startedByMessageID = msg.id)
    ∧ (∀ e, env.invoke (newSagaInstance env d inv msg) msg = Except.error e →
        handleNewSaga env d inv msg =
          (some e, [Effect.invokeHandler (newSagaInstance env d inv msg) msg]))
    ∧ (∀ s, env.invoke (newSagaInstance env d inv msg) msg = Except.ok s →
        (Effect.saveNewSaga d.sagaType
            { newSagaInstance env d inv msg with underlying := s }
          ∈ (handleNewSaga env d inv msg).2 ↔ s.complete = false))
    ∧ (∀ i, Effect.deleteSaga i ∉ (handleNewSaga env d inv msg).2)
    ∧ (∀ i, Effect.updateSaga i ∉ (handleNewSaga env d inv msg).2) := by
  refine ⟨⟨rfl, rfl, rfl, rfl⟩, ?_, ?_, ?_, ?_⟩
  · intro e he
    simp [handleNewSaga, he]
  · intro s hs
    cases hc : s.complete
    · simp only [handleNewSaga, hs, Instance.isComplete, hc, Bool.not_false, if_true]
      cases hsave : env.saveNewSaga d.sagaType
          { newSagaInstance env d inv msg with underlying := s } with
      | some e => simp
      | none => cases s.timeoutRequest <;> simp
    · simp [handleNewSaga, hs, Instance.isComplete, hc]
  · intro i
    simp only [handleNewSaga]
    cases env.invoke (newSagaInstance env d inv msg) msg with
    | error e => simp
    | ok s =>
      cases hc : s.complete
      · simp only [Instance.isComplete, hc, Bool.not_false, if_true]
        cases env.saveNewSaga d.sagaType
            { newSagaInstance env d inv msg with underlying := s } with
        | some e => simp
        | none => cases s.timeoutRequest <;> simp
      · simp [Instance.isComplete, hc]
  · intro i
    simp only [handleNewSaga]
    cases env.invoke (newSagaInstance env d inv msg) msg with
    | error e => simp
    | ok s =>
      cases hc : s.complete
      · simp only [Instance.isComplete, hc, Bool.not_false, if_true]
        cases env.saveNewSaga d.sagaType
            { newSagaInstance env d inv msg with underlying := s } with
        | some e => simp
        | none => cases s.timeoutRequest <;> simp
      · simp [Instance.isComplete, hc]

/-- Witness for C3: the concrete start message produces a fresh instance
whose successful, non-completing first invocation leads to it being saved
as new. -/
theorem handleNewSaga_causation_and_persistence_witness :
    Effect.saveNewSaga "OrderSaga"
        { newSagaInstance envEx defEx invEx msgCreateEx with underlying := sagaStateEx }
      ∈ (handleNewSaga envEx defEx invEx msgCreateEx).2 :=
  ((handleNewSaga_causation_and_persistence envEx defEx invEx msgCreateEx).2.2.1
    sagaStateEx rfl).mpr (by decide)

/-- An environment whose id lookups find the exemplar stored instance. -/
def envFoundEx : Env :=
  { envEx with getSagaByID := fun _ => GetSagaResult.found instEx }

/-- C5: `TimeoutSaga` treats the not-found sentinel as a no-op success
(only the lookup is issued), propagates any other fetch error, and for a
found instance invokes the timeout handler exactly once, propagating its
error without reconciling, or reconciling through `completeOrUpdateSaga`
exactly as dispatch does. -/
theorem timeoutSaga_sentinel_noop_else_reconcile (env : Env) (sagaID : String) :
    (env.getSagaByID sagaID = GetSagaResult.failure ErrInstanceNotFound →
      TimeoutSaga env sagaID = some (none, [Effect.getSagaByID sagaID]))
    ∧ (∀ e, e ≠ ErrInstanceNotFound →
        env.getSagaByID sagaID = GetSagaResult.failure e →
        TimeoutSaga env sagaID = some (some e, [Effect.getSagaByID sagaID]))
    ∧ (∀ saga, env.getSagaByID sagaID = GetSagaResult.found saga →
        (∀ te, env.timeoutHandler saga = Except.error te →
          TimeoutSaga env sagaID =
            some (some te,
              [Effect.getSagaByID sagaID, Effect.invokeTimeoutHandler saga]))
        ∧ (∀ s, env.timeoutHandler saga = Except.ok s →
            TimeoutSaga env sagaID =
              some ((completeOrUpdateSaga env { saga with underlying := s }).1,
                Effect.getSagaByID sagaID :: Effect.invokeTimeoutHandler saga ::
                  (completeOrUpdateSaga env { saga with underlying := s }).2)
            ∧ ∀ i, Effect.invokeTimeoutHandler i ∉
                (completeOrUpdateSaga env { saga with underlying := s }).2)) := by
  refine ⟨?_, ?_, ?_⟩
  · intro hget
    simp [TimeoutSaga, hget]
  · intro e hne hget
    simp [TimeoutSaga, hget, hne]
  · intro saga hget
    constructor
    · intro te hte
      simp [TimeoutSaga, hget, hte]
    · intro s hs
      constructor
      · simp [TimeoutSaga, hget, hs]
      · intro i
        simp only [completeOrUpdateSaga]
        by_cases hc : ({ saga with underlying := s } : Instance).isComplete
        · simp only [hc, if_true]
          cases env.deleteSaga { saga with underlying := s } with
          | some e => simp
          | none => simp
        · simp [hc]

/-- Witness for C5: a concrete found instance is timed out and reconciled
through an update, and a lookup answering the sentinel is a no-op
success. -/
theorem timeoutSaga_sentinel_noop_else_reconcile_witness :
    TimeoutSaga envFoundEx "saga-1" =
      some ((completeOrUpdateSaga envFoundEx { instEx with underlying := sagaStateEx }).1,
        Effect.getSagaByID "saga-1" :: Effect.invokeTimeoutHandler instEx ::
          (completeOrUpdateSaga envFoundEx { instEx with underlying := sagaStateEx }).2)
    ∧ TimeoutSaga envSentinelEx "gone" = some (none, [Effect.getSagaByID "gone"]) :=
  ⟨(((timeoutSaga_sentinel_noop_else_reconcile envFoundEx "saga-1").2.2 instEx
      (by decide)).2 sagaStateEx rfl).1,
   (timeoutSaga_sentinel_noop_else_reconcile envSentinelEx "gone").1 (by decide)⟩

/-- If every instance's invocation and reconciliation succeed, the
fan-out loop succeeds with the per-instance traces concatenated in
order. -/
theorem fanOutLoop_all_ok (env : Env) (t : String) (msg : BusMessage) :
    ∀ l : List Instance,
      (∀ i ∈ l, (dispatchToInstance env t msg i).1 = none) →
      fanOutLoop env t msg l =
        (none, (l.map fun i => (dispatchToInstance env t msg i).2).flatten) := by
  intro l
  induction l with
  | nil => intro _; simp [fanOutLoop]
  | cons inst rest ih =>
    intro h
    have hhead := h inst (List.mem_cons_self inst rest)
    have hrest := fun i hi => h i (List.mem_cons_of_mem inst hi)
    simp [fanOutLoop, hhead, ih hrest]

/-- The fan-out loop stops at the first failing instance: the prefix's
traces are committed in order, the failing instance's error is returned,
and the remaining instances contribute nothing. -/
theorem fanOutLoop_stops_at_failure (env : Env) (t : String) (msg : BusMessage)
    (inst : Instance) (e : Err) :
    ∀ (pre : List Instance) (post : List Instance),
      (∀ i ∈ pre, (dispatchToInstance env t msg i).1 = none) →
      (dispatchToInstance env t msg inst).1 = some e →
      fanOutLoop env t msg (pre ++ inst :: post) =
        (some e, (pre.map fun i => (dispatchToInstance env t msg i).2).flatten ++
          (dispatchToInstance env t msg inst).2) := by
  intro pre
  induction pre with
  | nil =>
    intro post _ hfail
    simp [fanOutLoop, hfail]
  | cons p ps ih =>
    intro post hpre hfail
    have hhead := hpre p (List.mem_cons_self p ps)
    have hrest := fun i hi => hpre i (List.mem_cons_of_mem p hi)
    simp [fanOutLoop, hhead, ih post hrest hfail]

/-- C2: an event-like message with no correlation id that is not a start
message invokes the handler on every instance returned by
`GetSagasByType`, in order, reconciling each immediately after its
invocation (each per-instance trace is the invocation followed by its
reconciliation effects); when instance N of M fails, that error is
returned at once, instances before it remain reconciled as persisted, and
the instances after it are neither invoked nor reconciled. -/
theorem sagaHandler_event_fanout
    (g : Glue) (env : Env) (inv : Invocation) (msg : BusMessage) (d : Def)
    (hdefs : resolveDefs g msg.payloadFQN = [d])
    (hstart : shouldStartNewSaga d msg = false)
    (hcid : msg.sagaCorrelationID = "")
    (hsem : msg.semantics = Semantics.EVT) :
    (∀ instances, env.getSagasByType d.sagaType = Except.ok instances →
      (∀ i ∈ instances, (dispatchToInstance env d.sagaType msg i).1 = none) →
      SagaHandler g env inv msg =
        (none, Effect.getSagasByType d.sagaType ::
          (instances.map fun i => (dispatchToInstance env d.sagaType msg i).2).flatten))
    ∧ (∀ pre inst post e,
        env.getSagasByType d.sagaType = Except.ok (pre ++ inst :: post) →
        (∀ i ∈ pre, (dispatchToInstance env d.sagaType msg i).1 = none) →
        (dispatchToInstance env d.sagaType msg inst).1 = some e →
        SagaHandler g env inv msg =
          (some e, Effect.getSagasByType d.sagaType ::
            ((pre.map fun i => (dispatchToInstance env d.sagaType msg i).2).flatten ++
             (dispatchToInstance env d.sagaType msg inst).2))) := by
  constructor
  · intro instances hget hok
    have hfan := fanOutLoop_all_ok env d.sagaType msg instances hok
    simp [SagaHandler, hdefs, sagaHandlerLoop, hstart, hcid, hsem, hget, hfan]
  · intro pre inst post e hget hpre hfail
    have hfan := fanOutLoop_stops_at_failure env d.sagaType msg inst e pre post hpre hfail
    simp [SagaHandler, hdefs, sagaHandlerLoop, hstart, hcid, hsem, hget, hfan]

/-- A second exemplar stored instance. -/
def instBEx : Instance := { instEx with id := "saga-2" }

/-- An exemplar correlation-free event message. -/
def msgEvtEx : BusMessage :=
  { payloadFQN := "OrderPaid", sagaID := "s0", sagaCorrelationID := "",
    rpcID := "r0", id := "m4", semantics := Semantics.EVT }

/-- An environment whose type fan-out yields two instances, the second of
which fails its invocation. -/
def envFanFailEx : Env :=
  { envEx with
      getSagasByType := fun _ => Except.ok [instEx, instBEx]
      invoke := fun i _ =>
        if i.id = "saga-2" then Except.error "handler failed"
        else Except.ok i.underlying }

/-- Witness for C2: with two stored instances of which the second fails,
dispatch reconciles the first (update issued), invokes the second, and
returns its error without touching anything further. -/
theorem sagaHandler_event_fanout_witness :
    SagaHandler glueEx envFanFailEx invEx msgEvtEx =
      (some "handler failed",
       [Effect.getSagasByType "OrderSaga",
        Effect.invokeHandler instEx msgEvtEx, Effect.updateSaga instEx,
        Effect.invokeHandler instBEx msgEvtEx]) :=
  (sagaHandler_event_fanout glueEx envFanFailEx invEx msgEvtEx defEx
      (by decide) (by decide) (by decide) (by decide)).2
    [instEx] instBEx [] "handler failed" rfl (by decide) (by decide)

/-- Indexing a Def under a key makes it resolvable under that key. -/
theorem mem_getDefs_addMsgNameToDef_self (m : String → List Def) (k : String)
    (d : Def) : d ∈ getDefsForMsgName (addMsgNameToDef m k d) k := by
  simp [addMsgNameToDef, getDefsForMsgName]

/-- Indexing a Def under one key preserves what any key resolves to. -/
theorem mem_getDefs_addMsgNameToDef_mono (m : String → List Def)
    (k k' : String) (d d' : Def) (h : d ∈ getDefsForMsgName m k) :
    d ∈ getDefsForMsgName (addMsgNameToDef m k' d') k := by
  by_cases hk : k = k'
  · subst hk
    simp only [addMsgNameToDef, getDefsForMsgName, if_pos rfl]
    exact List.mem_append_left _ h
  · simpa [addMsgNameToDef, getDefsForMsgName, hk] using h

/-- After folding `addMsgNameToDef` over a list of names, a Def is
resolvable under every folded name (and stays resolvable wherever it
already was). -/
theorem mem_getDefs_foldl (d : Def) :
    ∀ (names : List String) (m : String → List Def) (k : String),
      (k ∈ names ∨ d ∈ getDefsForMsgName m k) →
      d ∈ getDefsForMsgName
        (names.foldl (fun m' n => addMsgNameToDef m' n d) m) k := by
  intro names
  induction names with
  | nil =>
    intro m k h
    rcases h with h | h
    · cases h
    · simpa using h
  | cons n ns ih =>
    intro m k h
    simp only [List.foldl_cons]
    apply ih
    rcases h with h | h
    · rcases List.mem_cons.mp h with rfl | h2
      · exact Or.inr (mem_getDefs_addMsgNameToDef_self m k d)
      · exact Or.inl h2
    · exact Or.inr (mem_getDefs_addMsgNameToDef_mono m k n d d h)

/-- C7: Def resolution is case-insensitive end to end — registering a
saga that handles message name `N` indexes its Def so that dispatch's
lookup (which lowercases the incoming name) resolves the Def for any name
equal to `N` up to letter case. -/
theorem registration_dispatch_case_insensitive (g : Glue) (s : Saga)
    (N n : String)
    (hfresh : isSagaAlreadyRegistered g s.sagaType = false)
    (hmem : N ∈ s.handledMessages)
    (hcase : lowerString n = lowerString N) :
    mkDef s ∈ resolveDefs (RegisterSaga g s).2.1 n := by
  have hres : resolveDefs (RegisterSaga g s).2.1 n =
      getDefsForMsgName
        ((mkDef s).handledMessages.foldl
          (fun m' n' => addMsgNameToDef m' n' (mkDef s)) g.msgToDefMap)
        (lowerString n) := by
    simp [RegisterSaga, hfresh, resolveDefs, getDefsForMsgName]
  rw [hres]
  apply mem_getDefs_foldl
  left
  rw [hcase]
  exact List.mem_map_of_mem lowerString hmem

/-- An exemplar saga author registration. -/
def sagaEx : Saga :=
  { sagaType := "OrderSaga", startedBy := ["OrderCreated"],
    handledMessages := ["OrderCreated", "OrderPaid"] }

/-- An exemplar empty Glue, as built by `NewGlue`. -/
def glueEmptyEx : Glue :=
  { svcName := "svc-host", sagaDefs := [], msgToDefMap := fun _ => [] }

/-- Witness for C7: registering a saga handling `OrderPaid` lets dispatch
resolve its Def for the differently-cased name `ORDERPAID`. -/
theorem registration_dispatch_case_insensitive_witness :
    mkDef sagaEx ∈ resolveDefs (RegisterSaga glueEmptyEx sagaEx).2.1 "ORDERPAID" :=
  registration_dispatch_case_insensitive glueEmptyEx sagaEx "OrderPaid" "ORDERPAID"
    (by decide) (by decide) (by decide)

/-- C8: registering a saga type a second time returns an error naming the
duplicate type, leaves the Glue exactly as it was, and issues no storage
preparation (so no Def is built or appended and no message name is
indexed). -/
theorem registerSaga_duplicate_rejected (g : Glue) (s t : Saga)
    (heq : t.sagaType = s.sagaType) :
    RegisterSaga (RegisterSaga g s).2.1 t =
      (some ("saga of type " ++ t.sagaType ++ " already registered"),
       (RegisterSaga g s).2.1, []) := by
  have hreg : isSagaAlreadyRegistered (RegisterSaga g s).2.1 t.sagaType = true := by
    by_cases h : isSagaAlreadyRegistered g s.sagaType
    · have hg : (RegisterSaga g s).2.1 = g := by simp [RegisterSaga, h]
      rw [hg, heq]
      exact h
    · have hg : (RegisterSaga g s).2.1.sagaDefs = g.sagaDefs ++ [mkDef s] := by
        simp [RegisterSaga, h]
      simp only [isSagaAlreadyRegistered, hg, heq, List.any_append]
      simp [mkDef]
  set g1 := (RegisterSaga g s).2.1 with hg1
  simp [RegisterSaga, hreg]

/-- Witness for C8: registering the exemplar saga twice fails the second
time with the duplicate-type error and no effect. -/
theorem registerSaga_duplicate_rejected_witness :
    RegisterSaga (RegisterSaga glueEmptyEx sagaEx).2.1 sagaEx =
      (some ("saga of type OrderSaga already registered"),
       (RegisterSaga glueEmptyEx sagaEx).2.1, []) :=
  registerSaga_duplicate_rejected glueEmptyEx sagaEx sagaEx rfl

end Grabbit
